import Mathlib

/-!
# `auth0 users blocks`: identifier resolution and batch unblocking

A shallow embedding of `internal/cli/users_blocks.go`.  The two `RunE`
closures (`listUserBlocksCmd`, `deleteUserBlocksCmd`) are translated into pure
functions that thread the sequence of management-API calls made so far.  The
management service is a parameter: each of its four operations answers as a
function of the calls already made and of the identifier it is given, so a
backend may answer the same identifier differently at different times.
-/

namespace UsersBlocks

/-! ## Go values -/

/-- Value of `http.StatusBadRequest`. -/
def StatusBadRequest : Int := 400

/-- A non-nil Go `error` returned by a management-API call, split by dynamic
type: `management` values implement `management.Error` (they have a
`Status() int`), `plain` values are every other error (transport failures,
cancelled contexts, wrapped errors). `message` is what `Error()` returns. -/
inductive ApiError where
  | management (status : Int) (message : String)
  | plain (message : String)
  deriving DecidableEq, Repr

/-- The method `Error() string`. -/
def ApiError.Error : ApiError → String
  | .management _ message => message
  | .plain message => message

/-- The type assertion `mErr, ok := err.(management.Error)` on a Go `error`
interface value (`none` is the nil interface): `some status` when `ok`, with
`status = mErr.Status()`. A nil interface value fails every type assertion. -/
def assertManagementError : Option ApiError → Option Int
  | some (.management status _) => some status
  | some (.plain _) => none
  | none => none

/-- The guard shared by both commands:
`mErr, ok := err.(management.Error); ok && mErr.Status() != http.StatusBadRequest`. -/
def isTerminal (err : Option ApiError) : Bool :=
  match assertManagementError err with
  | some status => status != StatusBadRequest
  | none => false

/-- An error built by `fmt.Errorf` with a trailing `%w` operand: the formatted
message and the operand it wraps. -/
structure WrapError where
  msg : String
  err : Option ApiError
  deriving DecidableEq, Repr

/-- How `fmt.Errorf` prints its `%w` operand. -/
def formatW : Option ApiError → String
  | some e => e.Error
  | none => "%!w(<nil>)"

/-- The call `fmt.Errorf("failed to unblock user with identifier %s: %w", identifier, err)`. -/
def unblockErrorf (identifier : String) (err : Option ApiError) : WrapError :=
  ⟨"failed to unblock user with identifier " ++ identifier ++ ": " ++ formatW err, err⟩

/-- The call `fmt.Errorf("failed to list user blocks for user with ID %s: %w", userIdentifier, err)`. -/
def listErrorf (userIdentifier : String) (err : Option ApiError) : WrapError :=
  ⟨"failed to list user blocks for user with ID " ++ userIdentifier ++ ": " ++ formatW err, err⟩

/-- An error returned by one of the two commands. -/
inductive CmdError where
  | prompt (message : String)
  | wrapped (w : WrapError)
  | joined (errs : List WrapError)
  deriving DecidableEq, Repr

/-- Go's `errors.Join` on a slice of non-nil errors: nil when the slice is
empty, otherwise one error holding all of them in order. -/
def errorsJoin (errs : List WrapError) : Option CmdError :=
  if errs.length = 0 then none else some (.joined errs)

/-- The method `Error() string`; a joined error prints its members separated by
newlines. -/
def CmdError.Error : CmdError → String
  | .prompt message => message
  | .wrapped w => w.msg
  | .joined errs => "\n".intercalate (errs.map WrapError.msg)

/-! ## The management API -/

/-- The four operations of `cli.api.User` the commands call. -/
inductive Op where
  | Blocks
  | BlocksByIdentifier
  | Unblock
  | UnblockByIdentifier
  deriving DecidableEq, Repr

/-- One call made to the management API, with the error it returned. -/
structure Call where
  op : Op
  identifier : String
  err : Option ApiError
  deriving DecidableEq, Repr

/-- The interface `cli.api.User`, as far as the two commands use it. The first
argument of each operation is the list of calls made before this one, oldest
first; `β` is the type of block records (`*management.UserBlock`). -/
structure UserAPI (β : Type) where
  Blocks : List Call → String → List β × Option ApiError
  BlocksByIdentifier : List Call → String → List β × Option ApiError
  Unblock : List Call → String → Option ApiError
  UnblockByIdentifier : List Call → String → Option ApiError

/-- Modelled from the spec: `ansi.Waiting` (package `internal/ansi`, not part of
the sources at hand) runs the wrapped operation to completion and returns its
result unchanged. -/
def ansiWaiting {α : Type} (fn : α) : α := fn

/-- Modelled from the spec: `ansi.Spinner` (package `internal/ansi`, not part of
the sources at hand) runs the wrapped operation to completion and returns its
result unchanged; the text is only displayed. -/
def ansiSpinner {α : Type} (_text : String) (fn : α) : α := fn

/-! ## `users blocks list` -/

/-- State left by the closure passed to `ansi.Waiting`: the variable
`userBlocks`, the returned `err`, and the calls made so far. -/
structure Lookup (β : Type) where
  userBlocks : List β
  err : Option ApiError
  calls : List Call

/-- The closure passed to `ansi.Waiting` in `listUserBlocksCmd`. -/
def listUserBlocksLookup {β : Type} (api : UserAPI β) (calls : List Call)
    (userIdentifier : String) : Lookup β :=
  let r := api.Blocks calls userIdentifier
  let calls1 := calls ++ [⟨Op.Blocks, userIdentifier, r.2⟩]
  if isTerminal r.2 then
    ⟨r.1, r.2, calls1⟩
  else
    let r2 := api.BlocksByIdentifier calls1 userIdentifier
    ⟨r2.1, r2.2, calls1 ++ [⟨Op.BlocksByIdentifier, userIdentifier, r2.2⟩]⟩

/-- What one run of a command leaves behind: the error `RunE` returns, the
argument of `cli.renderer.UserBlocksList` when it was called, and the calls
made so far. -/
structure Outcome (β : Type) where
  err : Option CmdError
  rendered : Option (List β)
  calls : List Call

/-- The part of `RunE` of `listUserBlocksCmd` that follows the choice of
`inputs.userIdentifier`. -/
def listUserBlocksRun {β : Type} (api : UserAPI β) (calls : List Call)
    (userIdentifier : String) : Outcome β :=
  let r := ansiWaiting (listUserBlocksLookup api calls userIdentifier)
  match r.err with
  | some e => ⟨some (.wrapped (listErrorf userIdentifier (some e))), none, r.calls⟩
  | none => ⟨none, some r.userBlocks, r.calls⟩

/-- `RunE` of `listUserBlocksCmd`. `ask` is the result of
`userIdentifier.Ask`: an error, or the identifier the operator typed. -/
def listUserBlocksCmd {β : Type} (api : UserAPI β) (ask : Except String String)
    (args : List String) (calls : List Call) : Outcome β :=
  match args with
  | [] =>
    match ask with
    | .error e => ⟨some (.prompt e), none, calls⟩
    | .ok userIdentifier => listUserBlocksRun api calls userIdentifier
  | arg0 :: _ => listUserBlocksRun api calls arg0

/-! ## `users blocks unblock` -/

/-- State of the loop in `deleteUserBlocksCmd`: the slice `errs` and the calls
made so far. -/
structure LoopState where
  errs : List WrapError
  calls : List Call
  deriving DecidableEq, Repr

/-- One iteration of `for _, identifier := range identifiers`. -/
def unblockBody {β : Type} (api : UserAPI β) (identifier : String) (st : LoopState) :
    LoopState :=
  if identifier ≠ "" then
    let err := api.Unblock st.calls identifier
    let calls1 := st.calls ++ [⟨Op.Unblock, identifier, err⟩]
    if isTerminal err then
      ⟨st.errs ++ [unblockErrorf identifier err], calls1⟩
    else
      let err2 := api.UnblockByIdentifier calls1 identifier
      let calls2 := calls1 ++ [⟨Op.UnblockByIdentifier, identifier, err2⟩]
      if err2 ≠ none then
        ⟨st.errs ++ [unblockErrorf identifier err2], calls2⟩
      else
        ⟨st.errs, calls2⟩
  else
    st

/-- The loop `for _, identifier := range identifiers`. -/
def unblockLoop {β : Type} (api : UserAPI β) : List String → LoopState → LoopState
  | [], st => st
  | identifier :: rest, st => unblockLoop api rest (unblockBody api identifier st)

/-- The closure passed to `ansi.Spinner` in `deleteUserBlocksCmd`, with `errs`
starting out nil: its returned error and the calls made so far. -/
def unblockAll {β : Type} (api : UserAPI β) (identifiers : List String)
    (calls : List Call) : Option CmdError × List Call :=
  let st := unblockLoop api identifiers ⟨[], calls⟩
  (errorsJoin st.errs, st.calls)

/-- `RunE` of `deleteUserBlocksCmd`. `ask` is the result of
`userIdentifier.Ask`. `make([]string, len(args))` is a slice of `len(args)`
empty strings, to which the identifiers are appended. -/
def deleteUserBlocksCmd {β : Type} (api : UserAPI β) (ask : Except String String)
    (args : List String) (calls : List Call) : Option CmdError × List Call :=
  let identifiers := List.replicate args.length ""
  if args.length = 0 then
    match ask with
    | .error e => (some (.prompt e), calls)
    | .ok id =>
      ansiSpinner "Unblocking user(s)..." (unblockAll api (identifiers ++ [id]) calls)
  else
    ansiSpinner "Unblocking user(s)..." (unblockAll api (identifiers ++ args) calls)

/-- The first call an iteration of the unblock loop makes for `identifier`. -/
def primaryUnblock {β : Type} (api : UserAPI β) (calls : List Call) (identifier : String) :
    Call :=
  ⟨Op.Unblock, identifier, api.Unblock calls identifier⟩

/-- The second call an iteration of the unblock loop can make for `identifier`. -/
def fallbackUnblock {β : Type} (api : UserAPI β) (calls : List Call) (identifier : String) :
    Call :=
  ⟨Op.UnblockByIdentifier, identifier,
    api.UnblockByIdentifier (calls ++ [primaryUnblock api calls identifier]) identifier⟩

/-- The first call the list command makes for `identifier`. -/
def primaryBlocks {β : Type} (api : UserAPI β) (calls : List Call) (identifier : String) :
    Call :=
  ⟨Op.Blocks, identifier, (api.Blocks calls identifier).2⟩

/-- The answer of the second call the list command can make for `identifier`. -/
def fallbackBlocksAnswer {β : Type} (api : UserAPI β) (calls : List Call)
    (identifier : String) : List β × Option ApiError :=
  api.BlocksByIdentifier (calls ++ [primaryBlocks api calls identifier]) identifier

/-- The second call the list command can make for `identifier`. -/
def fallbackBlocks {β : Type} (api : UserAPI β) (calls : List Call) (identifier : String) :
    Call :=
  ⟨Op.BlocksByIdentifier, identifier, (fallbackBlocksAnswer api calls identifier).2⟩

/-- The failure the unblock loop records for the identifier `p.1` when the call
that decides its outcome returns the error `p.2`. -/
def failureOf (p : String × ApiError) : WrapError :=
  unblockErrorf p.1 (some p.2)

/-- Whether a Go `error` is a `management.Error` with status 400. -/
def isBadRequest : Option ApiError → Bool
  | some (.management status _) => status == StatusBadRequest
  | some (.plain _) => false
  | none => false

/-- Whether a Go `error` is non-nil and of a dynamic type other than
`management.Error`. -/
def isOtherType : Option ApiError → Bool
  | some (.management _ _) => false
  | some (.plain _) => true
  | none => false

/-- The error the backend returns to the call `c` when it is made after the
calls `history`. -/
def UserAPI.answer {β : Type} (api : UserAPI β) (history : List Call) (c : Call) :
    Option ApiError :=
  match c.op with
  | .Blocks => (api.Blocks history c.identifier).2
  | .BlocksByIdentifier => (api.BlocksByIdentifier history c.identifier).2
  | .Unblock => api.Unblock history c.identifier
  | .UnblockByIdentifier => api.UnblockByIdentifier history c.identifier

/-- Every call of the second list, made in that order after the calls
`history`, is logged with the error the backend returned to it. -/
def answersOf {β : Type} (api : UserAPI β) : List Call → List Call → Prop
  | _, [] => True
  | history, c :: rest => c.err = api.answer history c ∧ answersOf api (history ++ [c]) rest

/-- Whether a logged call of the unblock loop is one after which the loop
records a failure: an ID-based unblock whose error passes the guard of line 101
(`ok && mErr.Status() != http.StatusBadRequest`), or an identifier-based
unblock whose error is not nil (line 107). -/
def endsInFailure (c : Call) : Bool :=
  match c.op with
  | .Unblock => isTerminal c.err
  | .UnblockByIdentifier => c.err.isSome
  | .Blocks => false
  | .BlocksByIdentifier => false

/-! ## Concrete backends -/

/-- A backend whose answers depend on the identifier only. -/
def constAPI (blocks blocksByIdentifier : String → List String × Option ApiError)
    (unblock unblockByIdentifier : String → Option ApiError) : UserAPI String :=
  ⟨fun _ => blocks, fun _ => blocksByIdentifier, fun _ => unblock, fun _ => unblockByIdentifier⟩

/-- The ID-based calls succeed (the lookup finds one block); the identifier-based
calls answer "not found". -/
def idOnlyAPI : UserAPI String :=
  constAPI (fun _ => (["block-1"], none))
    (fun _ => ([], some (.management 404 "Not Found")))
    (fun _ => none)
    (fun _ => some (.management 404 "Not Found"))

/-- The ID-based lookup finds one block; the identifier-based lookup succeeds
and finds none. -/
def idLookupAPI : UserAPI String :=
  constAPI (fun _ => (["block-1"], none)) (fun _ => ([], none)) (fun _ => none) (fun _ => none)

/-- The ID-based calls are rejected as bad requests; the identifier-based calls
answer "not found". -/
def badIdAPI : UserAPI String :=
  constAPI (fun _ => ([], some (.management 400 "Bad Request")))
    (fun _ => ([], some (.management 404 "Not Found")))
    (fun _ => some (.management 400 "Bad Request"))
    (fun _ => some (.management 404 "Not Found"))

/-- The ID-based calls fail in transport, with an error that is no
`management.Error`; the identifier-based calls succeed. -/
def flakyAPI : UserAPI String :=
  constAPI (fun _ => ([], some (.plain "connection reset")))
    (fun _ => (["block-1"], none))
    (fun _ => some (.plain "connection reset"))
    (fun _ => none)

/-- The ID-based calls answer "not found"; the identifier-based calls succeed. -/
def notFoundAPI : UserAPI String :=
  constAPI (fun _ => ([], some (.management 404 "Not Found")))
    (fun _ => (["block-1"], none))
    (fun _ => some (.management 404 "Not Found"))
    (fun _ => none)

/-- A backend for the unblock command whose answers depend on the identifier
only; its lookups find nothing. -/
def unblockAPI (unblock unblockByIdentifier : String → Option ApiError) : UserAPI String :=
  constAPI (fun _ => ([], none)) (fun _ => ([], none)) unblock unblockByIdentifier

/-- The ID-based unblock fails in transport for "b" and is rejected as a bad
request for every other identifier; the identifier-based unblock succeeds. -/
def resetOnB : UserAPI String :=
  unblockAPI
    (fun identifier =>
      if identifier = "b" then some (.plain "connection reset")
      else some (.management 400 "Bad Request"))
    (fun _ => none)

/-- The ID-based unblock answers "not found" for "b" and is rejected as a bad
request for every other identifier; the identifier-based unblock succeeds. -/
def notFoundOnB : UserAPI String :=
  unblockAPI
    (fun identifier =>
      if identifier = "b" then some (.management 404 "Not Found")
      else some (.management 400 "Bad Request"))
    (fun _ => none)

/-- The ID-based unblock is rejected as a bad request for "user@example.com"
and answers "not found" for every other identifier; the identifier-based
unblock succeeds. -/
def emailAPI : UserAPI String :=
  unblockAPI
    (fun identifier =>
      if identifier = "user@example.com" then some (.management 400 "Bad Request")
      else some (.management 404 "Not Found"))
    (fun _ => none)

/-! ## Basic facts -/

theorem isTerminal_iff (err : Option ApiError) :
    isTerminal err = true ↔
      ∃ status message, err = some (.management status message) ∧ status ≠ StatusBadRequest := by
  rcases err with _ | ⟨status, message⟩ | message
  · simp [isTerminal, assertManagementError]
  · simp [isTerminal, assertManagementError]
  · simp [isTerminal, assertManagementError]

theorem isTerminal_management (status : Int) (message : String) :
    isTerminal (some (.management status message)) = true ↔ status ≠ StatusBadRequest := by
  simp [isTerminal, assertManagementError]

theorem unblockBody_empty {β : Type} (api : UserAPI β) (st : LoopState) :
    unblockBody api "" st = st := by
  simp [unblockBody]

theorem unblockBody_terminal {β : Type} (api : UserAPI β) (identifier : String)
    (st : LoopState) (hne : identifier ≠ "")
    (h : isTerminal (api.Unblock st.calls identifier) = true) :
    unblockBody api identifier st =
      ⟨st.errs ++ [unblockErrorf identifier (api.Unblock st.calls identifier)],
        st.calls ++ [primaryUnblock api st.calls identifier]⟩ := by
  simp [unblockBody, hne, h, primaryUnblock]

theorem unblockBody_fallback_fails {β : Type} (api : UserAPI β) (identifier : String)
    (st : LoopState) (hne : identifier ≠ "")
    (h : isTerminal (api.Unblock st.calls identifier) = false)
    (h2 : (fallbackUnblock api st.calls identifier).err ≠ none) :
    unblockBody api identifier st =
      ⟨st.errs ++ [unblockErrorf identifier (fallbackUnblock api st.calls identifier).err],
        st.calls ++ [primaryUnblock api st.calls identifier,
          fallbackUnblock api st.calls identifier]⟩ := by
  simp only [fallbackUnblock, primaryUnblock] at h2
  simp [unblockBody, hne, h, h2, primaryUnblock, fallbackUnblock]

theorem unblockBody_fallback_succeeds {β : Type} (api : UserAPI β) (identifier : String)
    (st : LoopState) (hne : identifier ≠ "")
    (h : isTerminal (api.Unblock st.calls identifier) = false)
    (h2 : (fallbackUnblock api st.calls identifier).err = none) :
    unblockBody api identifier st =
      ⟨st.errs, st.calls ++ [primaryUnblock api st.calls identifier,
          fallbackUnblock api st.calls identifier]⟩ := by
  simp only [fallbackUnblock, primaryUnblock] at h2
  simp [unblockBody, hne, h, h2, primaryUnblock, fallbackUnblock]

theorem lookup_terminal {β : Type} (api : UserAPI β) (calls : List Call) (identifier : String)
    (h : isTerminal (api.Blocks calls identifier).2 = true) :
    listUserBlocksLookup api calls identifier =
      ⟨(api.Blocks calls identifier).1, (api.Blocks calls identifier).2,
        calls ++ [primaryBlocks api calls identifier]⟩ := by
  simp [listUserBlocksLookup, h, primaryBlocks]

theorem lookup_fallback {β : Type} (api : UserAPI β) (calls : List Call) (identifier : String)
    (h : isTerminal (api.Blocks calls identifier).2 = false) :
    listUserBlocksLookup api calls identifier =
      ⟨(fallbackBlocksAnswer api calls identifier).1, (fallbackBlocksAnswer api calls identifier).2,
        calls ++ [primaryBlocks api calls identifier, fallbackBlocks api calls identifier]⟩ := by
  simp [listUserBlocksLookup, h, primaryBlocks, fallbackBlocks, fallbackBlocksAnswer]

theorem unblockLoop_append {β : Type} (api : UserAPI β) (xs ys : List String) (st : LoopState) :
    unblockLoop api (xs ++ ys) st = unblockLoop api ys (unblockLoop api xs st) := by
  induction xs generalizing st with
  | nil => rfl
  | cons x xs ih => simp [unblockLoop, ih]

theorem unblockLoop_filter {β : Type} (api : UserAPI β) (ids : List String) (st : LoopState) :
    unblockLoop api (ids.filter (fun identifier => identifier ≠ "")) st =
      unblockLoop api ids st := by
  induction ids generalizing st with
  | nil => rfl
  | cons x xs ih =>
    by_cases hx : x = ""
    · subst hx
      rw [List.filter_cons_of_neg (by simp), ih]
      show _ = unblockLoop api xs (unblockBody api "" st)
      rw [unblockBody_empty]
    · rw [List.filter_cons_of_pos (by simpa using hx)]
      show unblockLoop api _ (unblockBody api x st) = unblockLoop api xs (unblockBody api x st)
      rw [ih]

theorem unblockLoop_replicate {β : Type} (api : UserAPI β) (n : Nat) (st : LoopState) :
    unblockLoop api (List.replicate n "") st = st := by
  induction n with
  | zero => rfl
  | succ n ih => simp [List.replicate_succ, unblockLoop, unblockBody_empty, ih]

theorem listRun_of_lookup {β : Type} (api : UserAPI β) (ask : Except String String)
    (calls : List Call) (identifier : String) (rest : List String) :
    listUserBlocksCmd api ask (identifier :: rest) calls =
      listUserBlocksRun api calls identifier := rfl

theorem unblockBody_errs {β : Type} (api : UserAPI β) (identifier : String) (st : LoopState)
    (hne : identifier ≠ "") :
    (unblockBody api identifier st).errs = st.errs ∨
      ∃ e, (unblockBody api identifier st).errs = st.errs ++ [failureOf (identifier, e)] := by
  cases ht : isTerminal (api.Unblock st.calls identifier)
  · rcases hf : (fallbackUnblock api st.calls identifier).err with _ | e
    · left
      rw [unblockBody_fallback_succeeds api identifier st hne ht hf]
    · right
      refine ⟨e, ?_⟩
      rw [unblockBody_fallback_fails api identifier st hne ht (by simp [hf]), hf]
      rfl
  · right
    obtain ⟨status, message, he, _⟩ := (isTerminal_iff _).1 ht
    refine ⟨.management status message, ?_⟩
    rw [unblockBody_terminal api identifier st hne ht, he]
    rfl

theorem unblockLoop_errs {β : Type} (api : UserAPI β) (ids : List String) (st : LoopState) :
    ∃ failed : List (String × ApiError),
      (failed.map Prod.fst).Sublist (ids.filter (fun identifier => identifier ≠ "")) ∧
      (unblockLoop api ids st).errs = st.errs ++ failed.map failureOf := by
  induction ids generalizing st with
  | nil => exact ⟨[], by simp, by simp [unblockLoop]⟩
  | cons x xs ih =>
    by_cases hx : x = ""
    · subst hx
      obtain ⟨failed, hsub, herrs⟩ := ih st
      refine ⟨failed, ?_, ?_⟩
      · rw [List.filter_cons_of_neg (by simp)]
        exact hsub
      · show (unblockLoop api xs (unblockBody api "" st)).errs = _
        rw [unblockBody_empty]
        exact herrs
    · obtain ⟨failed, hsub, herrs⟩ := ih (unblockBody api x st)
      rw [List.filter_cons_of_pos (by simpa using hx)]
      rcases unblockBody_errs api x st hx with h | ⟨e, h⟩
      · refine ⟨failed, hsub.cons x, ?_⟩
        show (unblockLoop api xs (unblockBody api x st)).errs = _
        rw [herrs, h]
      · refine ⟨(x, e) :: failed, ?_, ?_⟩
        · simpa using hsub
        · show (unblockLoop api xs (unblockBody api x st)).errs = _
          rw [herrs, h]
          simp

theorem unblockBody_calls {β : Type} (api : UserAPI β) (identifier : String) (st : LoopState)
    (hne : identifier ≠ "") :
    (isTerminal (api.Unblock st.calls identifier) = true ∧
      (unblockBody api identifier st).calls =
        st.calls ++ [primaryUnblock api st.calls identifier]) ∨
    (isTerminal (api.Unblock st.calls identifier) = false ∧
      (unblockBody api identifier st).calls =
        st.calls ++ [primaryUnblock api st.calls identifier,
          fallbackUnblock api st.calls identifier]) := by
  cases ht : isTerminal (api.Unblock st.calls identifier)
  · right
    refine ⟨rfl, ?_⟩
    by_cases hf : (fallbackUnblock api st.calls identifier).err = none
    · rw [unblockBody_fallback_succeeds api identifier st hne ht hf]
    · rw [unblockBody_fallback_fails api identifier st hne ht hf]
  · left
    refine ⟨rfl, ?_⟩
    rw [unblockBody_terminal api identifier st hne ht]

theorem unblockLoop_calls {β : Type} (api : UserAPI β) (ids : List String) (st : LoopState) :
    ∃ made : List Call,
      (unblockLoop api ids st).calls = st.calls ++ made ∧
      (made.filter (fun c => c.op = Op.Unblock)).map Call.identifier =
        ids.filter (fun identifier => identifier ≠ "") ∧
      made.length = (ids.filter (fun identifier => identifier ≠ "")).length +
        (made.filter (fun c => decide (c.op = Op.Unblock) && !isTerminal c.err)).length := by
  induction ids generalizing st with
  | nil => exact ⟨[], by simp [unblockLoop], by simp, by simp⟩
  | cons x xs ih =>
    by_cases hx : x = ""
    · subst hx
      obtain ⟨made, hcalls, hids, hlen⟩ := ih st
      refine ⟨made, ?_, ?_, ?_⟩
      · show (unblockLoop api xs (unblockBody api "" st)).calls = _
        rw [unblockBody_empty]
        exact hcalls
      · rw [List.filter_cons_of_neg (by simp)]
        exact hids
      · rw [List.filter_cons_of_neg (by simp)]
        exact hlen
    · obtain ⟨made, hcalls, hids, hlen⟩ := ih (unblockBody api x st)
      rw [List.filter_cons_of_pos (by simpa using hx)]
      rcases unblockBody_calls api x st hx with ⟨ht, hb⟩ | ⟨ht, hb⟩
      · refine ⟨primaryUnblock api st.calls x :: made, ?_, ?_, ?_⟩
        · show (unblockLoop api xs (unblockBody api x st)).calls = _
          rw [hcalls, hb]
          simp
        · rw [List.filter_cons_of_pos (by simp [primaryUnblock]), List.map_cons, hids]
          rfl
        · rw [List.filter_cons_of_neg (by simp [primaryUnblock, ht])]
          simp only [List.length_cons]
          omega
      · refine ⟨primaryUnblock api st.calls x :: fallbackUnblock api st.calls x :: made,
          ?_, ?_, ?_⟩
        · show (unblockLoop api xs (unblockBody api x st)).calls = _
          rw [hcalls, hb]
          simp
        · rw [List.filter_cons_of_pos (by simp [primaryUnblock]),
            List.filter_cons_of_neg (by simp [fallbackUnblock]), List.map_cons, hids]
          rfl
        · rw [List.filter_cons_of_pos (by simp [primaryUnblock, ht]),
            List.filter_cons_of_neg (by simp [fallbackUnblock])]
          simp only [List.length_cons]
          omega

theorem fallsBack_eq (e : ApiError) :
    (!isTerminal (some e)) = (isBadRequest (some e) || isOtherType (some e)) := by
  cases e with
  | management status message =>
    simp [isTerminal, assertManagementError, isBadRequest, isOtherType, bne]
  | plain message => simp [isTerminal, assertManagementError, isBadRequest, isOtherType]

theorem endsInFailure_some (c : Call) (h : endsInFailure c = true) : ∃ e, c.err = some e := by
  rcases c with ⟨op, identifier, err⟩
  cases err with
  | some e => exact ⟨e, rfl⟩
  | none => cases op <;> simp [endsInFailure, isTerminal, assertManagementError] at h

theorem unblockLoop_trace {β : Type} (api : UserAPI β) (ids : List String) (st : LoopState) :
    ∃ made : List Call,
      (unblockLoop api ids st).calls = st.calls ++ made ∧
      answersOf api st.calls made ∧
      (made.filter (fun c => c.op = Op.Unblock)).map Call.identifier =
        ids.filter (fun identifier => identifier ≠ "") ∧
      (unblockLoop api ids st).errs =
        st.errs ++ (made.filter endsInFailure).map
          (fun c => unblockErrorf c.identifier c.err) ∧
      ((made.filter endsInFailure).map Call.identifier).Sublist
        (ids.filter (fun identifier => identifier ≠ "")) := by
  induction ids generalizing st with
  | nil => exact ⟨[], by simp [unblockLoop], trivial, by simp, by simp [unblockLoop], by simp⟩
  | cons x xs ih =>
    by_cases hx : x = ""
    · subst hx
      obtain ⟨made, h1, h2, h3, h4, h5⟩ := ih st
      rw [List.filter_cons_of_neg (by simp)]
      refine ⟨made, ?_, h2, h3, ?_, h5⟩
      · show (unblockLoop api xs (unblockBody api "" st)).calls = _
        rw [unblockBody_empty]
        exact h1
      · show (unblockLoop api xs (unblockBody api "" st)).errs = _
        rw [unblockBody_empty]
        exact h4
    · rw [List.filter_cons_of_pos (by simpa using hx)]
      have hstep : unblockLoop api (x :: xs) st = unblockLoop api xs (unblockBody api x st) :=
        rfl
      rw [hstep]
      have hp : endsInFailure (primaryUnblock api st.calls x) =
          isTerminal (api.Unblock st.calls x) := rfl
      have hpa : (primaryUnblock api st.calls x).err =
          api.answer st.calls (primaryUnblock api st.calls x) := rfl
      have hfa : (fallbackUnblock api st.calls x).err =
          api.answer (st.calls ++ [primaryUnblock api st.calls x])
            (fallbackUnblock api st.calls x) := rfl
      cases ht : isTerminal (api.Unblock st.calls x)
      · have hf0 : endsInFailure (fallbackUnblock api st.calls x) =
            (fallbackUnblock api st.calls x).err.isSome := rfl
        by_cases hf : (fallbackUnblock api st.calls x).err = none
        · rw [unblockBody_fallback_succeeds api x st hx ht hf]
          obtain ⟨made, h1, h2, h3, h4, h5⟩ := ih ⟨st.errs,
            st.calls ++ [primaryUnblock api st.calls x, fallbackUnblock api st.calls x]⟩
          have hfe : endsInFailure (fallbackUnblock api st.calls x) = false := by
            rw [hf0, hf]; rfl
          refine ⟨primaryUnblock api st.calls x :: fallbackUnblock api st.calls x :: made,
            ?_, ?_, ?_, ?_, ?_⟩
          · rw [h1]; simp
          · refine ⟨hpa, hfa, ?_⟩
            simpa using h2
          · rw [List.filter_cons_of_pos (by simp [primaryUnblock]),
              List.filter_cons_of_neg (by simp [fallbackUnblock]), List.map_cons, h3]
            rfl
          · rw [h4, List.filter_cons_of_neg (by simp [hp, ht]),
              List.filter_cons_of_neg (by simp [hfe])]
          · rw [List.filter_cons_of_neg (by simp [hp, ht]),
              List.filter_cons_of_neg (by simp [hfe])]
            exact h5.cons x
        · rw [unblockBody_fallback_fails api x st hx ht hf]
          obtain ⟨made, h1, h2, h3, h4, h5⟩ := ih
            ⟨st.errs ++ [unblockErrorf x (fallbackUnblock api st.calls x).err],
              st.calls ++ [primaryUnblock api st.calls x, fallbackUnblock api st.calls x]⟩
          have hfe : endsInFailure (fallbackUnblock api st.calls x) = true := by
            rw [hf0]
            cases hfo : (fallbackUnblock api st.calls x).err with
            | none => exact absurd hfo hf
            | some e => rfl
          refine ⟨primaryUnblock api st.calls x :: fallbackUnblock api st.calls x :: made,
            ?_, ?_, ?_, ?_, ?_⟩
          · rw [h1]; simp
          · refine ⟨hpa, hfa, ?_⟩
            simpa using h2
          · rw [List.filter_cons_of_pos (by simp [primaryUnblock]),
              List.filter_cons_of_neg (by simp [fallbackUnblock]), List.map_cons, h3]
            rfl
          · rw [h4, List.filter_cons_of_neg (by simp [hp, ht]),
              List.filter_cons_of_pos hfe, List.map_cons]
            simp [fallbackUnblock]
          · rw [List.filter_cons_of_neg (by simp [hp, ht]),
              List.filter_cons_of_pos hfe, List.map_cons]
            exact h5.cons₂ x
      · rw [unblockBody_terminal api x st hx ht]
        obtain ⟨made, h1, h2, h3, h4, h5⟩ := ih
          ⟨st.errs ++ [unblockErrorf x (api.Unblock st.calls x)],
            st.calls ++ [primaryUnblock api st.calls x]⟩
        refine ⟨primaryUnblock api st.calls x :: made, ?_, ?_, ?_, ?_, ?_⟩
        · rw [h1]; simp
        · exact ⟨hpa, h2⟩
        · rw [List.filter_cons_of_pos (by simp [primaryUnblock]), List.map_cons, h3]
          rfl
        · rw [h4, List.filter_cons_of_pos (by rw [hp, ht]), List.map_cons]
          simp [primaryUnblock]
        · rw [List.filter_cons_of_pos (by rw [hp, ht]), List.map_cons]
          exact h5.cons₂ x

/-! ## The claims -/

/-- C1 (defect in the code): with a backend whose ID-based calls succeed, both
commands go on to make the identifier-based call for "auth0|abc123", so two
backend calls are made instead of one; the unblock batch then reports the
identifier as failed because of the answer to the second call. -/
theorem fallback_called_after_primary_success :
    idOnlyAPI.Unblock [] "auth0|abc123" = none ∧
    (unblockBody idOnlyAPI "auth0|abc123" ⟨[], []⟩).calls =
      [⟨Op.Unblock, "auth0|abc123", none⟩,
        ⟨Op.UnblockByIdentifier, "auth0|abc123", some (.management 404 "Not Found")⟩] ∧
    (unblockAll idOnlyAPI ["auth0|abc123"] []).1 =
      some (.joined [unblockErrorf "auth0|abc123" (some (.management 404 "Not Found"))]) ∧
    (idOnlyAPI.Blocks [] "auth0|abc123").2 = none ∧
    (listUserBlocksLookup idOnlyAPI [] "auth0|abc123").calls =
      [⟨Op.Blocks, "auth0|abc123", none⟩,
        ⟨Op.BlocksByIdentifier, "auth0|abc123", some (.management 404 "Not Found")⟩] := by
  decide

/-- C2: when the ID-based call for an identifier is rejected with status 400,
the identifier-based call is made once, right after it and for the same
identifier, and its answer alone is the outcome: no failure when it succeeds,
otherwise a failure wrapping its error (never the status-400 error). This holds
for an iteration of the unblock loop and for the list command. -/
theorem bad_request_falls_back {β : Type} (api : UserAPI β) (ask : Except String String)
    (calls : List Call) (identifier : String) (st : LoopState) (message : String) :
    (identifier ≠ "" →
      api.Unblock st.calls identifier = some (.management StatusBadRequest message) →
        (unblockBody api identifier st).calls =
          st.calls ++ [⟨Op.Unblock, identifier, some (.management StatusBadRequest message)⟩,
            fallbackUnblock api st.calls identifier] ∧
        (fallbackUnblock api st.calls identifier).op = Op.UnblockByIdentifier ∧
        (fallbackUnblock api st.calls identifier).identifier = identifier ∧
        ((fallbackUnblock api st.calls identifier).err = none →
          (unblockBody api identifier st).errs = st.errs) ∧
        (∀ e, (fallbackUnblock api st.calls identifier).err = some e →
          (unblockBody api identifier st).errs =
            st.errs ++ [unblockErrorf identifier (some e)])) ∧
    ((api.Blocks calls identifier).2 = some (.management StatusBadRequest message) →
        (listUserBlocksCmd api ask [identifier] calls).calls =
          calls ++ [⟨Op.Blocks, identifier, some (.management StatusBadRequest message)⟩,
            fallbackBlocks api calls identifier] ∧
        (fallbackBlocks api calls identifier).op = Op.BlocksByIdentifier ∧
        (fallbackBlocks api calls identifier).identifier = identifier ∧
        ((fallbackBlocksAnswer api calls identifier).2 = none →
          (listUserBlocksCmd api ask [identifier] calls).err = none ∧
          (listUserBlocksCmd api ask [identifier] calls).rendered =
            some (fallbackBlocksAnswer api calls identifier).1) ∧
        (∀ e, (fallbackBlocksAnswer api calls identifier).2 = some e →
          (listUserBlocksCmd api ask [identifier] calls).err =
            some (.wrapped (listErrorf identifier (some e))) ∧
          (listUserBlocksCmd api ask [identifier] calls).rendered = none)) := by
  constructor
  · intro hne h
    have ht : isTerminal (api.Unblock st.calls identifier) = false := by
      rw [h]; simp [isTerminal, assertManagementError]
    have hp : primaryUnblock api st.calls identifier =
        ⟨Op.Unblock, identifier, some (.management StatusBadRequest message)⟩ := by
      simp [primaryUnblock, h]
    refine ⟨?_, rfl, rfl, ?_, ?_⟩
    · rcases hf : (fallbackUnblock api st.calls identifier).err with _ | e
      · rw [unblockBody_fallback_succeeds api identifier st hne ht hf, hp]
      · rw [unblockBody_fallback_fails api identifier st hne ht (by simp [hf]), hp]
    · intro hf
      rw [unblockBody_fallback_succeeds api identifier st hne ht hf]
    · intro e hf
      rw [unblockBody_fallback_fails api identifier st hne ht (by simp [hf]), hf]
  · intro h
    have ht : isTerminal (api.Blocks calls identifier).2 = false := by
      rw [h]; simp [isTerminal, assertManagementError]
    have hp : primaryBlocks api calls identifier =
        ⟨Op.Blocks, identifier, some (.management StatusBadRequest message)⟩ := by
      simp [primaryBlocks, h]
    rw [listRun_of_lookup]
    refine ⟨?_, rfl, rfl, ?_, ?_⟩
    · simp only [listUserBlocksRun, ansiWaiting, lookup_fallback api calls identifier ht, hp]
      split <;> rfl
    · intro hf
      simp [listUserBlocksRun, ansiWaiting, lookup_fallback api calls identifier ht, hf]
    · intro e hf
      simp [listUserBlocksRun, ansiWaiting, lookup_fallback api calls identifier ht, hf]

/-- C2, at its scenario: for "bad-id", with the ID-based call rejected as a bad
request and the identifier-based call answering "not found", the batch makes
the two calls and returns one failure, naming "bad-id" and wrapping the
"not found" error; the list command fails in the same way. -/
theorem bad_request_falls_back_witness :
    (unblockBody badIdAPI "bad-id" ⟨[], []⟩).calls =
      [⟨Op.Unblock, "bad-id", some (.management 400 "Bad Request")⟩,
        ⟨Op.UnblockByIdentifier, "bad-id", some (.management 404 "Not Found")⟩] ∧
    (unblockBody badIdAPI "bad-id" ⟨[], []⟩).errs =
      [unblockErrorf "bad-id" (some (.management 404 "Not Found"))] ∧
    deleteUserBlocksCmd badIdAPI (.ok "") ["bad-id"] [] =
      (some (.joined [⟨"failed to unblock user with identifier bad-id: Not Found",
          some (.management 404 "Not Found")⟩]),
        [⟨Op.Unblock, "bad-id", some (.management 400 "Bad Request")⟩,
          ⟨Op.UnblockByIdentifier, "bad-id", some (.management 404 "Not Found")⟩]) ∧
    (listUserBlocksCmd badIdAPI (.ok "") ["bad-id"] []).err =
      some (.wrapped (listErrorf "bad-id" (some (.management 404 "Not Found")))) ∧
    (listUserBlocksCmd badIdAPI (.ok "") ["bad-id"] []).rendered = none := by
  have h := bad_request_falls_back badIdAPI (.ok "") [] "bad-id" ⟨[], []⟩ "Bad Request"
  have hu := h.1 (by decide) rfl
  have hl := h.2 rfl
  refine ⟨hu.1, hu.2.2.2.2 _ rfl, by decide, (hl.2.2.2.2 _ rfl).1, (hl.2.2.2.2 _ rfl).2⟩

/-- C3, as stated, fails: for "user-1" the ID-based call fails with an error
that is not a status-400 rejection (it is no `management.Error` at all), yet
the identifier-based call is made and, since that one succeeds, no failure is
recorded for the batch and the list command renders the second answer. -/
theorem other_error_not_terminal_counterexample :
    flakyAPI.Unblock [] "user-1" = some (.plain "connection reset") ∧
    (flakyAPI.Blocks [] "user-1").2 = some (.plain "connection reset") ∧
    ¬ ((unblockBody flakyAPI "user-1" ⟨[], []⟩).calls =
          [⟨Op.Unblock, "user-1", some (.plain "connection reset")⟩] ∧
        (unblockBody flakyAPI "user-1" ⟨[], []⟩).errs =
          [unblockErrorf "user-1" (some (.plain "connection reset"))]) ∧
    unblockBody flakyAPI "user-1" ⟨[], []⟩ =
      ⟨[], [⟨Op.Unblock, "user-1", some (.plain "connection reset")⟩,
        ⟨Op.UnblockByIdentifier, "user-1", none⟩]⟩ ∧
    ¬ ((listUserBlocksCmd flakyAPI (.ok "") ["user-1"] []).calls =
          [⟨Op.Blocks, "user-1", some (.plain "connection reset")⟩] ∧
        (listUserBlocksCmd flakyAPI (.ok "") ["user-1"] []).err =
          some (.wrapped (listErrorf "user-1" (some (.plain "connection reset"))))) ∧
    (listUserBlocksCmd flakyAPI (.ok "") ["user-1"] []).calls =
      [⟨Op.Blocks, "user-1", some (.plain "connection reset")⟩,
        ⟨Op.BlocksByIdentifier, "user-1", none⟩] ∧
    (listUserBlocksCmd flakyAPI (.ok "") ["user-1"] []).err = none ∧
    (listUserBlocksCmd flakyAPI (.ok "") ["user-1"] []).rendered = some ["block-1"] := by
  decide

/-- C3, amended: when the ID-based call for an identifier fails with a
`management.Error` whose status is not 400, the identifier-based call is not
made and the outcome for the identifier is a failure wrapping that error. This
holds for an iteration of the unblock loop and for the list command. -/
theorem management_error_is_terminal {β : Type} (api : UserAPI β)
    (ask : Except String String) (calls : List Call) (identifier : String) (st : LoopState)
    (status : Int) (message : String) (hstatus : status ≠ StatusBadRequest) :
    (identifier ≠ "" →
      api.Unblock st.calls identifier = some (.management status message) →
        unblockBody api identifier st =
          ⟨st.errs ++ [unblockErrorf identifier (some (.management status message))],
            st.calls ++ [⟨Op.Unblock, identifier, some (.management status message)⟩]⟩) ∧
    ((api.Blocks calls identifier).2 = some (.management status message) →
        (listUserBlocksCmd api ask [identifier] calls).calls =
          calls ++ [⟨Op.Blocks, identifier, some (.management status message)⟩] ∧
        (listUserBlocksCmd api ask [identifier] calls).err =
          some (.wrapped (listErrorf identifier (some (.management status message)))) ∧
        (listUserBlocksCmd api ask [identifier] calls).rendered = none) := by
  constructor
  · intro hne h
    have ht : isTerminal (api.Unblock st.calls identifier) = true := by
      rw [h]; exact (isTerminal_management status message).2 hstatus
    rw [unblockBody_terminal api identifier st hne ht]
    simp [primaryUnblock, h]
  · intro h
    have ht : isTerminal (api.Blocks calls identifier).2 = true := by
      rw [h]; exact (isTerminal_management status message).2 hstatus
    rw [listRun_of_lookup]
    simp [listUserBlocksRun, ansiWaiting, lookup_terminal api calls identifier ht, h,
      primaryBlocks]

/-- C3, amended, at a concrete input: "user-1" with ID-based calls answering
"not found" (status 404). -/
theorem management_error_is_terminal_witness :
    (404 : Int) ≠ StatusBadRequest ∧
    unblockBody notFoundAPI "user-1" ⟨[], []⟩ =
      ⟨[unblockErrorf "user-1" (some (.management 404 "Not Found"))],
        [⟨Op.Unblock, "user-1", some (.management 404 "Not Found")⟩]⟩ ∧
    (listUserBlocksCmd notFoundAPI (.ok "") ["user-1"] []).calls =
      [⟨Op.Blocks, "user-1", some (.management 404 "Not Found")⟩] ∧
    (listUserBlocksCmd notFoundAPI (.ok "") ["user-1"] []).err =
      some (.wrapped (listErrorf "user-1" (some (.management 404 "Not Found")))) ∧
    (listUserBlocksCmd notFoundAPI (.ok "") ["user-1"] []).rendered = none :=
  have h := management_error_is_terminal notFoundAPI (.ok "") [] "user-1" ⟨[], []⟩ 404
    "Not Found" (by decide)
  ⟨by decide, h.1 (by decide) rfl, h.2 rfl⟩

/-- C7 (defect in the code): for "auth0|abc123" the ID-based lookup succeeds
and returns the record "block-1", yet the command renders what the
identifier-based lookup returns (no record), and when that lookup answers
"not found" the command fails and renders nothing. -/
theorem primary_records_discarded :
    idLookupAPI.Blocks [] "auth0|abc123" = (["block-1"], none) ∧
    (listUserBlocksCmd idLookupAPI (.ok "") ["auth0|abc123"] []).err = none ∧
    (listUserBlocksCmd idLookupAPI (.ok "") ["auth0|abc123"] []).rendered = some [] ∧
    idOnlyAPI.Blocks [] "auth0|abc123" = (["block-1"], none) ∧
    (listUserBlocksCmd idOnlyAPI (.ok "") ["auth0|abc123"] []).err =
      some (.wrapped ⟨"failed to list user blocks for user with ID auth0|abc123: Not Found",
        some (.management 404 "Not Found")⟩) ∧
    (listUserBlocksCmd idOnlyAPI (.ok "") ["auth0|abc123"] []).rendered = none := by
  decide

/-- C9: resolving a non-empty identifier makes one or two backend calls: the
ID-based call first, then at most one identifier-based call for the same
identifier, and nothing else. This holds for an iteration of the unblock loop
and for the list command. -/
theorem one_or_two_calls {β : Type} (api : UserAPI β) (ask : Except String String)
    (calls : List Call) (identifier : String) (st : LoopState) (hne : identifier ≠ "") :
    ((unblockBody api identifier st).calls =
        st.calls ++ [⟨Op.Unblock, identifier, api.Unblock st.calls identifier⟩] ∨
      (unblockBody api identifier st).calls =
        st.calls ++ [⟨Op.Unblock, identifier, api.Unblock st.calls identifier⟩,
          ⟨Op.UnblockByIdentifier, identifier,
            (fallbackUnblock api st.calls identifier).err⟩]) ∧
    ((listUserBlocksCmd api ask [identifier] calls).calls =
        calls ++ [⟨Op.Blocks, identifier, (api.Blocks calls identifier).2⟩] ∨
      (listUserBlocksCmd api ask [identifier] calls).calls =
        calls ++ [⟨Op.Blocks, identifier, (api.Blocks calls identifier).2⟩,
          ⟨Op.BlocksByIdentifier, identifier, (fallbackBlocksAnswer api calls identifier).2⟩]) ∧
    ((unblockBody api identifier st).calls.length = st.calls.length + 1 ∨
      (unblockBody api identifier st).calls.length = st.calls.length + 2) ∧
    ((listUserBlocksCmd api ask [identifier] calls).calls.length = calls.length + 1 ∨
      (listUserBlocksCmd api ask [identifier] calls).calls.length = calls.length + 2) := by
  have hu : (unblockBody api identifier st).calls =
        st.calls ++ [⟨Op.Unblock, identifier, api.Unblock st.calls identifier⟩] ∨
      (unblockBody api identifier st).calls =
        st.calls ++ [⟨Op.Unblock, identifier, api.Unblock st.calls identifier⟩,
          ⟨Op.UnblockByIdentifier, identifier,
            (fallbackUnblock api st.calls identifier).err⟩] := by
    cases ht : isTerminal (api.Unblock st.calls identifier)
    · right
      by_cases hf : (fallbackUnblock api st.calls identifier).err = none
      · rw [unblockBody_fallback_succeeds api identifier st hne ht hf]
        rfl
      · rw [unblockBody_fallback_fails api identifier st hne ht hf]
        rfl
    · left
      rw [unblockBody_terminal api identifier st hne ht]
      rfl
  have hl : (listUserBlocksCmd api ask [identifier] calls).calls =
        calls ++ [⟨Op.Blocks, identifier, (api.Blocks calls identifier).2⟩] ∨
      (listUserBlocksCmd api ask [identifier] calls).calls =
        calls ++ [⟨Op.Blocks, identifier, (api.Blocks calls identifier).2⟩,
          ⟨Op.BlocksByIdentifier, identifier,
            (fallbackBlocksAnswer api calls identifier).2⟩] := by
    rw [listRun_of_lookup]
    cases ht : isTerminal (api.Blocks calls identifier).2
    · right
      simp only [listUserBlocksRun, ansiWaiting, lookup_fallback api calls identifier ht]
      split <;> rfl
    · left
      simp only [listUserBlocksRun, ansiWaiting, lookup_terminal api calls identifier ht]
      split <;> rfl
  refine ⟨hu, hl, ?_, ?_⟩
  · rcases hu with h | h
    · left; rw [h]; simp
    · right; rw [h]; simp
  · rcases hl with h | h
    · left; rw [h]; simp
    · right; rw [h]; simp

/-- C9, at concrete inputs: "bad-id" with ID-based calls rejected as bad
requests takes two calls. -/
theorem one_or_two_calls_witness :
    "bad-id" ≠ "" ∧
    (unblockBody badIdAPI "bad-id" ⟨[], []⟩).calls.length = 2 ∧
    (listUserBlocksCmd badIdAPI (.ok "") ["bad-id"] []).calls.length = 2 := by
  have h := one_or_two_calls badIdAPI (.ok "") [] "bad-id" ⟨[], []⟩ (by decide)
  refine ⟨by decide, ?_, ?_⟩
  · rcases h.2.2.1 with h1 | h1
    · exact absurd h1 (by decide)
    · exact h1
  · rcases h.2.2.2 with h1 | h1
    · exact absurd h1 (by decide)
    · exact h1

/-- C10: for a non-empty identifier the identifier-based call is skipped
exactly when the ID-based call returned a `management.Error` whose status is
not 400; in every other case (no error, a status-400 `management.Error`, an
error of another type) it is made, right after the ID-based call, and its answer
alone decides whether the identifier is reported as failed. This holds for an
iteration of the unblock loop and for the list command. -/
theorem fallback_skipped_iff {β : Type} (api : UserAPI β) (ask : Except String String)
    (calls : List Call) (identifier : String) (st : LoopState) (hne : identifier ≠ "") :
    ((unblockBody api identifier st).calls =
        st.calls ++ [primaryUnblock api st.calls identifier] ↔
      ∃ status message, api.Unblock st.calls identifier = some (.management status message) ∧
        status ≠ StatusBadRequest) ∧
    ((¬ ∃ status message, api.Unblock st.calls identifier = some (.management status message) ∧
        status ≠ StatusBadRequest) →
      (unblockBody api identifier st).calls =
        st.calls ++ [primaryUnblock api st.calls identifier,
          fallbackUnblock api st.calls identifier] ∧
      ((unblockBody api identifier st).errs = st.errs ↔
        (fallbackUnblock api st.calls identifier).err = none) ∧
      (∀ e, (fallbackUnblock api st.calls identifier).err = some e →
        (unblockBody api identifier st).errs =
          st.errs ++ [unblockErrorf identifier (some e)])) ∧
    ((listUserBlocksCmd api ask [identifier] calls).calls =
        calls ++ [primaryBlocks api calls identifier] ↔
      ∃ status message, (api.Blocks calls identifier).2 = some (.management status message) ∧
        status ≠ StatusBadRequest) ∧
    ((¬ ∃ status message, (api.Blocks calls identifier).2 = some (.management status message) ∧
        status ≠ StatusBadRequest) →
      (listUserBlocksCmd api ask [identifier] calls).calls =
        calls ++ [primaryBlocks api calls identifier, fallbackBlocks api calls identifier] ∧
      ((fallbackBlocksAnswer api calls identifier).2 = none →
        (listUserBlocksCmd api ask [identifier] calls).err = none ∧
        (listUserBlocksCmd api ask [identifier] calls).rendered =
          some (fallbackBlocksAnswer api calls identifier).1) ∧
      (∀ e, (fallbackBlocksAnswer api calls identifier).2 = some e →
        (listUserBlocksCmd api ask [identifier] calls).err =
          some (.wrapped (listErrorf identifier (some e))) ∧
        (listUserBlocksCmd api ask [identifier] calls).rendered = none)) := by
  have hu2 : isTerminal (api.Unblock st.calls identifier) = false →
      (unblockBody api identifier st).calls =
        st.calls ++ [primaryUnblock api st.calls identifier,
          fallbackUnblock api st.calls identifier] := by
    intro ht
    by_cases hf : (fallbackUnblock api st.calls identifier).err = none
    · rw [unblockBody_fallback_succeeds api identifier st hne ht hf]
    · rw [unblockBody_fallback_fails api identifier st hne ht hf]
  have hl2 : isTerminal (api.Blocks calls identifier).2 = false →
      (listUserBlocksCmd api ask [identifier] calls).calls =
        calls ++ [primaryBlocks api calls identifier, fallbackBlocks api calls identifier] := by
    intro ht
    rw [listRun_of_lookup]
    simp only [listUserBlocksRun, ansiWaiting, lookup_fallback api calls identifier ht]
    split <;> rfl
  refine ⟨?_, ?_, ?_, ?_⟩
  · rw [← isTerminal_iff]
    constructor
    · intro h
      cases ht : isTerminal (api.Unblock st.calls identifier)
      · rw [hu2 ht] at h
        have := congrArg List.length h
        simp at this
      · rfl
    · intro ht
      rw [unblockBody_terminal api identifier st hne ht]
  · rw [← isTerminal_iff]
    intro hnt
    have ht : isTerminal (api.Unblock st.calls identifier) = false := by
      simpa using hnt
    refine ⟨hu2 ht, ?_, ?_⟩
    · constructor
      · intro h
        by_contra hf
        rw [unblockBody_fallback_fails api identifier st hne ht hf] at h
        have := congrArg List.length h
        simp at this
      · intro hf
        rw [unblockBody_fallback_succeeds api identifier st hne ht hf]
    · intro e hf
      rw [unblockBody_fallback_fails api identifier st hne ht (by simp [hf]), hf]
  · rw [← isTerminal_iff]
    constructor
    · intro h
      cases ht : isTerminal (api.Blocks calls identifier).2
      · rw [hl2 ht] at h
        have := congrArg List.length h
        simp at this
      · rfl
    · intro ht
      rw [listRun_of_lookup]
      simp only [listUserBlocksRun, ansiWaiting, lookup_terminal api calls identifier ht]
      split <;> rfl
  · rw [← isTerminal_iff]
    intro hnt
    have ht : isTerminal (api.Blocks calls identifier).2 = false := by
      simpa using hnt
    refine ⟨hl2 ht, ?_, ?_⟩
    · intro hf
      rw [listRun_of_lookup]
      simp [listUserBlocksRun, ansiWaiting, lookup_fallback api calls identifier ht, hf]
    · intro e hf
      rw [listRun_of_lookup]
      simp [listUserBlocksRun, ansiWaiting, lookup_fallback api calls identifier ht, hf]

/-- C10, at a concrete input: for "auth0|abc123" the ID-based calls return no
error, the identifier-based calls are made all the same, and their
"not found" answer is what is reported. -/
theorem fallback_skipped_iff_witness :
    "auth0|abc123" ≠ "" ∧
    idOnlyAPI.Unblock [] "auth0|abc123" = none ∧
    (unblockBody idOnlyAPI "auth0|abc123" ⟨[], []⟩).calls =
      [primaryUnblock idOnlyAPI [] "auth0|abc123", fallbackUnblock idOnlyAPI [] "auth0|abc123"] ∧
    (unblockBody idOnlyAPI "auth0|abc123" ⟨[], []⟩).errs =
      [unblockErrorf "auth0|abc123" (some (.management 404 "Not Found"))] ∧
    (listUserBlocksCmd idOnlyAPI (.ok "") ["auth0|abc123"] []).err =
      some (.wrapped (listErrorf "auth0|abc123" (some (.management 404 "Not Found")))) := by
  have h := fallback_skipped_iff idOnlyAPI (.ok "") [] "auth0|abc123" ⟨[], []⟩ (by decide)
  have hu := h.2.1 (by
    rintro ⟨_, _, hsome, _⟩
    have hnone : (none : Option ApiError) = _ := hsome
    cases hnone)
  have hl := h.2.2.2 (by
    rintro ⟨_, _, hsome, _⟩
    have hnone : (none : Option ApiError) = _ := hsome
    cases hnone)
  exact ⟨by decide, rfl, hu.1, hu.2.2 _ rfl, (hl.2.2 _ rfl).1⟩

/-- C5: the unblock batch returns nil exactly when no failure was recorded;
otherwise it returns one joined error holding every recorded failure, in the
order recorded, whose message is their messages joined by newlines. What is
recorded is pinned by the calls made: the loop makes the ID-based call for every
non-empty identifier in input order, every logged error is the answer of the
backend, and from any state the loop keeps the failures already recorded and
appends, in call order, exactly one failure for each call that ends a
resolution in failure (never more than one per identifier), reading "failed to
unblock user with identifier <identifier>: <message of that call's error>". So
the batch returns nil exactly when no call ended in failure, and otherwise the
returned message lists every such failure, in input order, none dropped and
none overwritten. -/
theorem unblock_result_joins_failures {β : Type} (api : UserAPI β)
    (identifiers : List String) (calls : List Call) (st : LoopState) :
    ((unblockAll api identifiers calls).1 = none ↔
      (unblockLoop api identifiers ⟨[], calls⟩).errs = []) ∧
    (∀ err, (unblockAll api identifiers calls).1 = some err →
      err = .joined (unblockLoop api identifiers ⟨[], calls⟩).errs ∧
      err.Error = "\n".intercalate
        ((unblockLoop api identifiers ⟨[], calls⟩).errs.map WrapError.msg)) ∧
    (∃ made : List Call,
      (unblockLoop api identifiers st).calls = st.calls ++ made ∧
      answersOf api st.calls made ∧
      (made.filter (fun c => c.op = Op.Unblock)).map Call.identifier =
        identifiers.filter (fun identifier => identifier ≠ "") ∧
      ((made.filter endsInFailure).map Call.identifier).Sublist
        (identifiers.filter (fun identifier => identifier ≠ "")) ∧
      (∀ c ∈ made.filter endsInFailure, ∃ e, c.err = some e ∧ formatW c.err = e.Error) ∧
      (unblockLoop api identifiers st).errs =
        st.errs ++ (made.filter endsInFailure).map
          (fun c => unblockErrorf c.identifier c.err) ∧
      (unblockLoop api identifiers st).errs.map WrapError.msg =
        st.errs.map WrapError.msg ++ (made.filter endsInFailure).map
          (fun c => "failed to unblock user with identifier " ++ c.identifier ++ ": " ++
            formatW c.err)) ∧
    (∃ made : List Call,
      (unblockAll api identifiers calls).2 = calls ++ made ∧
      answersOf api calls made ∧
      (made.filter (fun c => c.op = Op.Unblock)).map Call.identifier =
        identifiers.filter (fun identifier => identifier ≠ "") ∧
      ((made.filter endsInFailure).map Call.identifier).Sublist
        (identifiers.filter (fun identifier => identifier ≠ "")) ∧
      ((unblockAll api identifiers calls).1 = none ↔ made.filter endsInFailure = []) ∧
      (∀ err, (unblockAll api identifiers calls).1 = some err →
        err = .joined ((made.filter endsInFailure).map
          (fun c => unblockErrorf c.identifier c.err)) ∧
        err.Error = "\n".intercalate ((made.filter endsInFailure).map
          (fun c => "failed to unblock user with identifier " ++ c.identifier ++ ": " ++
            formatW c.err)))) := by
  have hmsg : ∀ l : List Call,
      (l.map (fun c => unblockErrorf c.identifier c.err)).map WrapError.msg =
        l.map (fun c => "failed to unblock user with identifier " ++ c.identifier ++ ": " ++
          formatW c.err) := by
    intro l
    rw [List.map_map]
    rfl
  have hjoin : ∀ errs : List WrapError,
      (errorsJoin errs = none ↔ errs = []) ∧
      (∀ err, errorsJoin errs = some err →
        err = .joined errs ∧ err.Error = "\n".intercalate (errs.map WrapError.msg)) := by
    intro errs
    cases errs with
    | nil => simp [errorsJoin]
    | cons w ws =>
      refine ⟨by simp [errorsJoin], ?_⟩
      intro err herr
      simp [errorsJoin] at herr
      subst herr
      exact ⟨rfl, rfl⟩
  refine ⟨(hjoin _).1, (hjoin _).2, ?_, ?_⟩
  · obtain ⟨made, h1, h2, h3, h4, h5⟩ := unblockLoop_trace api identifiers st
    refine ⟨made, h1, h2, h3, h5, ?_, h4, ?_⟩
    · intro c hc
      obtain ⟨e, he⟩ := endsInFailure_some c (List.mem_filter.1 hc).2
      exact ⟨e, he, by rw [he]; rfl⟩
    · rw [h4, List.map_append, hmsg]
  · obtain ⟨made, h1, h2, h3, h4, h5⟩ := unblockLoop_trace api identifiers ⟨[], calls⟩
    have h4b : (unblockLoop api identifiers ⟨[], calls⟩).errs =
        (made.filter endsInFailure).map (fun c => unblockErrorf c.identifier c.err) := by
      rw [h4]
      rfl
    have hres : (unblockAll api identifiers calls).1 =
        errorsJoin ((made.filter endsInFailure).map
          (fun c => unblockErrorf c.identifier c.err)) := by
      rw [← h4b]
      rfl
    refine ⟨made, h1, h2, h3, h5, ?_, ?_⟩
    · rw [hres, (hjoin _).1]
      simp
    · intro err herr
      rw [hres] at herr
      have hj := (hjoin _).2 err herr
      rw [hmsg] at hj
      exact hj

/-- C5, at concrete inputs: when the ID-based unblock answers "not found" for
each of "a", "b" and "c", the batch returns one error holding the three
failures, whose message is their three lines in input order; and a loop
started with the failure of "a" already recorded keeps it in front of the
failure of "b". -/
theorem unblock_result_joins_failures_witness :
    (unblockAll notFoundAPI ["a", "b", "c"] []).1 =
      some (.joined [unblockErrorf "a" (some (.management 404 "Not Found")),
        unblockErrorf "b" (some (.management 404 "Not Found")),
        unblockErrorf "c" (some (.management 404 "Not Found"))]) ∧
    (∀ err, (unblockAll notFoundAPI ["a", "b", "c"] []).1 = some err →
      err.Error =
        "failed to unblock user with identifier a: Not Found\nfailed to unblock user with identifier b: Not Found\nfailed to unblock user with identifier c: Not Found") ∧
    (unblockLoop notFoundAPI ["b"]
        ⟨[unblockErrorf "a" (some (.management 404 "Not Found"))], []⟩).errs =
      [unblockErrorf "a" (some (.management 404 "Not Found")),
        unblockErrorf "b" (some (.management 404 "Not Found"))] := by
  refine ⟨by decide, ?_, by decide⟩
  intro err herr
  have h := ((unblock_result_joins_failures notFoundAPI ["a", "b", "c"] []
    ⟨[], []⟩).2.1 err herr).2
  rw [h]
  decide

/-- C6: an empty identifier makes the loop body do nothing, so the unblock batch
makes the same calls and returns the same result on a list, on that list without
its empty strings, and on that list behind any number of empty strings; hence
the command, which puts `len(args)` empty strings in front of its arguments,
behaves as the batch run on the arguments (or on the identifier asked for) alone.
No recorded failure names an empty identifier. -/
theorem empty_identifiers_are_skipped {β : Type} (api : UserAPI β)
    (ask : Except String String) (identifiers args : List String) (arg0 asked : String)
    (n : Nat) (calls : List Call) (st : LoopState) :
    unblockBody api "" st = st ∧
    unblockAll api identifiers calls =
      unblockAll api (identifiers.filter (fun identifier => identifier ≠ "")) calls ∧
    unblockAll api (List.replicate n "" ++ identifiers) calls =
      unblockAll api identifiers calls ∧
    deleteUserBlocksCmd api ask (arg0 :: args) calls = unblockAll api (arg0 :: args) calls ∧
    deleteUserBlocksCmd api (.ok asked) [] calls = unblockAll api [asked] calls ∧
    (∀ w ∈ (unblockLoop api identifiers ⟨[], calls⟩).errs,
      ∃ identifier e, identifier ∈ identifiers ∧ identifier ≠ "" ∧
        w = unblockErrorf identifier (some e)) := by
  have hrep : ∀ (m : Nat) (ids : List String),
      unblockAll api (List.replicate m "" ++ ids) calls = unblockAll api ids calls := by
    intro m ids
    simp only [unblockAll, unblockLoop_append, unblockLoop_replicate]
  refine ⟨unblockBody_empty api st, ?_, hrep n identifiers, ?_, ?_, ?_⟩
  · simp only [unblockAll, unblockLoop_filter]
  · simp only [deleteUserBlocksCmd, ansiSpinner]
    rw [if_neg (by simp)]
    exact hrep _ _
  · simp only [deleteUserBlocksCmd, ansiSpinner]
    rw [if_pos (by simp)]
    exact hrep _ _
  · obtain ⟨failed, hsub, herrs⟩ := unblockLoop_errs api identifiers ⟨[], calls⟩
    intro w hw
    rw [herrs] at hw
    simp only [List.nil_append, List.mem_map] at hw
    obtain ⟨p, hp, rfl⟩ := hw
    have hmem : p.1 ∈ identifiers.filter (fun identifier => identifier ≠ "") :=
      hsub.subset (List.mem_map_of_mem Prod.fst hp)
    rw [List.mem_filter] at hmem
    exact ⟨p.1, p.2, hmem.1, by simpa using hmem.2, rfl⟩

/-- C4, as stated, fails: in the batch ["a", "", "b"], "a" is resolved
successfully and the ID-based call for "b" fails with an error that is not a
status-400 rejection, yet no failure is recorded for "b" and the batch returns
nil, because the identifier-based call is made for "b" and succeeds. -/
theorem batch_failures_counterexample :
    resetOnB.Unblock [] "b" = some (.plain "connection reset") ∧
    isBadRequest (some (.plain "connection reset")) = false ∧
    (unblockLoop resetOnB ["a", "", "b"] ⟨[], []⟩).errs = [] ∧
    ¬ (∃ e, (unblockLoop resetOnB ["a", "", "b"] ⟨[], []⟩).errs = [unblockErrorf "b" e]) ∧
    unblockAll resetOnB ["a", "", "b"] [] =
      (none,
        [⟨Op.Unblock, "a", some (.management 400 "Bad Request")⟩,
          ⟨Op.UnblockByIdentifier, "a", none⟩,
          ⟨Op.Unblock, "b", some (.plain "connection reset")⟩,
          ⟨Op.UnblockByIdentifier, "b", none⟩]) := by
  refine ⟨by decide, by decide, by decide, ?_, by decide⟩
  rintro ⟨e, he⟩
  have hnil : (unblockLoop resetOnB ["a", "", "b"] ⟨[], []⟩).errs = [] := by decide
  rw [hnil] at he
  cases he

/-- C4, amended: the unblock batch makes the ID-based call for every non-empty
identifier, in input order, whatever the outcome of the earlier ones. For an
occurrence of a non-empty identifier, reached in the state the identifiers
before it left, the failures recorded at the end are those of the identifiers
before it, then its own, then those of the identifiers after it. Its own are:
one failure wrapping the ID-based error when that error is a `management.Error`
of a status other than 400; one failure wrapping the identifier-based error
when the ID-based call failed otherwise (status 400, or an error of another
type) and the identifier-based call failed; none when the ID-based call failed
otherwise and the identifier-based call succeeded. -/
theorem batch_collects_failures_in_order {β : Type} (api : UserAPI β)
    (before after : List String) (identifier : String) (st0 reached final : LoopState)
    (hne : identifier ≠ "")
    (hreached : reached = unblockLoop api before st0)
    (hfinal : final = unblockLoop api (before ++ identifier :: after) st0) :
    (∃ made : List Call,
      final.calls = st0.calls ++ made ∧
      (made.filter (fun c => c.op = Op.Unblock)).map Call.identifier =
        (before ++ identifier :: after).filter (fun i => i ≠ "")) ∧
    final = unblockLoop api after (unblockBody api identifier reached) ∧
    (∃ (failedBefore failedAfter : List (String × ApiError)) (own : List WrapError),
      (failedBefore.map Prod.fst).Sublist (before.filter (fun i => i ≠ "")) ∧
      (failedAfter.map Prod.fst).Sublist (after.filter (fun i => i ≠ "")) ∧
      reached.errs = st0.errs ++ failedBefore.map failureOf ∧
      (unblockBody api identifier reached).errs = reached.errs ++ own ∧
      final.errs = st0.errs ++ failedBefore.map failureOf ++ own ++ failedAfter.map failureOf ∧
      (∀ status message,
        api.Unblock reached.calls identifier = some (.management status message) →
        status ≠ StatusBadRequest →
          own = [unblockErrorf identifier (some (.management status message))]) ∧
      (∀ e, api.Unblock reached.calls identifier = some e →
        (isBadRequest (some e) = true ∨ isOtherType (some e) = true) →
          (∀ e2, (fallbackUnblock api reached.calls identifier).err = some e2 →
            own = [unblockErrorf identifier (some e2)]) ∧
          ((fallbackUnblock api reached.calls identifier).err = none → own = []))) := by
  subst hreached hfinal
  have hsplit : unblockLoop api (before ++ identifier :: after) st0 =
      unblockLoop api after (unblockBody api identifier (unblockLoop api before st0)) := by
    rw [unblockLoop_append]
    rfl
  refine ⟨?_, hsplit, ?_⟩
  · obtain ⟨made, hcalls, hids, _⟩ := unblockLoop_calls api (before ++ identifier :: after) st0
    exact ⟨made, hcalls, hids⟩
  · obtain ⟨failedBefore, hsubB, herrsB⟩ := unblockLoop_errs api before st0
    obtain ⟨failedAfter, hsubA, herrsA⟩ :=
      unblockLoop_errs api after (unblockBody api identifier (unblockLoop api before st0))
    have hown : ∃ own : List WrapError,
        (unblockBody api identifier (unblockLoop api before st0)).errs =
          (unblockLoop api before st0).errs ++ own ∧
        (∀ status message,
          api.Unblock (unblockLoop api before st0).calls identifier =
            some (.management status message) →
          status ≠ StatusBadRequest →
            own = [unblockErrorf identifier (some (.management status message))]) ∧
        (∀ e, api.Unblock (unblockLoop api before st0).calls identifier = some e →
          (isBadRequest (some e) = true ∨ isOtherType (some e) = true) →
            (∀ e2, (fallbackUnblock api (unblockLoop api before st0).calls identifier).err =
                some e2 → own = [unblockErrorf identifier (some e2)]) ∧
            ((fallbackUnblock api (unblockLoop api before st0).calls identifier).err = none →
              own = [])) := by
      cases ht : isTerminal (api.Unblock (unblockLoop api before st0).calls identifier)
      · have hnot : ∀ status message,
            api.Unblock (unblockLoop api before st0).calls identifier =
              some (.management status message) →
            status ≠ StatusBadRequest → False := by
          intro status message he hs
          rw [he, (isTerminal_management status message).2 hs] at ht
          cases ht
        rcases hf : (fallbackUnblock api (unblockLoop api before st0).calls identifier).err
          with _ | e2
        · refine ⟨[], ?_, ?_, ?_⟩
          · rw [unblockBody_fallback_succeeds api identifier _ hne ht hf]
            simp
          · intro status message he hs
            exact (hnot status message he hs).elim
          · intro e _ _
            exact ⟨fun e2 h2 => (by cases h2), fun _ => rfl⟩
        · refine ⟨[unblockErrorf identifier (some e2)], ?_, ?_, ?_⟩
          · rw [unblockBody_fallback_fails api identifier _ hne ht (by simp [hf]), hf]
          · intro status message he hs
            exact (hnot status message he hs).elim
          · intro e _ _
            refine ⟨fun e3 h3 => ?_, fun h3 => by cases h3⟩
            cases h3
            rfl
      · refine ⟨[unblockErrorf identifier
            (api.Unblock (unblockLoop api before st0).calls identifier)], ?_, ?_, ?_⟩
        · rw [unblockBody_terminal api identifier _ hne ht]
        · intro status message he _
          rw [he]
        · intro e he hcls
          rw [he] at ht
          have hfb := fallsBack_eq e
          rw [ht] at hfb
          rcases hcls with h | h <;> simp [h] at hfb
    obtain ⟨own, hbody, hterm, hfall⟩ := hown
    refine ⟨failedBefore, failedAfter, own, hsubB, hsubA, herrsB, hbody, ?_, hterm, hfall⟩
    rw [hsplit, herrsA, hbody, herrsB]

/-- C4, amended, at its scenario: in ["a", "", "b"], "a" is resolved
successfully and the ID-based call for "b" answers "not found" (status 404);
the batch makes the ID-based call for "a" and for "b" and records exactly one
failure, naming "b". -/
theorem batch_collects_failures_in_order_witness :
    "b" ≠ "" ∧
    notFoundOnB.Unblock (unblockLoop notFoundOnB ["a", ""] ⟨[], []⟩).calls "b" =
      some (.management 404 "Not Found") ∧
    (unblockLoop notFoundOnB ["a", ""] ⟨[], []⟩).errs = [] ∧
    (unblockBody notFoundOnB "b" (unblockLoop notFoundOnB ["a", ""] ⟨[], []⟩)).errs =
      [unblockErrorf "b" (some (.management 404 "Not Found"))] ∧
    (unblockLoop notFoundOnB ["a", "", "b"] ⟨[], []⟩).errs =
      [⟨"failed to unblock user with identifier b: Not Found",
        some (.management 404 "Not Found")⟩] ∧
    (unblockLoop notFoundOnB ["a", "", "b"] ⟨[], []⟩).calls =
      [⟨Op.Unblock, "a", some (.management 400 "Bad Request")⟩,
        ⟨Op.UnblockByIdentifier, "a", none⟩,
        ⟨Op.Unblock, "b", some (.management 404 "Not Found")⟩] := by
  have h := batch_collects_failures_in_order notFoundOnB ["a", ""] [] "b" ⟨[], []⟩
    (unblockLoop notFoundOnB ["a", ""] ⟨[], []⟩)
    (unblockLoop notFoundOnB ["a", "", "b"] ⟨[], []⟩) (by decide) rfl rfl
  obtain ⟨_, _, failedBefore, failedAfter, own, _, _, _, hbody, _, hterm, _⟩ := h
  have hown := hterm 404 "Not Found" (by decide) (by decide)
  have hreached : (unblockLoop notFoundOnB ["a", ""] ⟨[], []⟩).errs = [] := by decide
  refine ⟨by decide, by decide, hreached, ?_, by decide, by decide⟩
  rw [hbody, hown, hreached]
  rfl

/-- C8, as stated, fails: for the batch ["user-1"] the ID-based call fails with
an error that is not a status-400 rejection and the identifier-based call is
made all the same, so two calls are made where the claimed count (non-empty
identifiers plus bad-request rejections) is one. -/
theorem call_count_counterexample :
    (unblockAll flakyAPI ["user-1"] []).2 =
      [⟨Op.Unblock, "user-1", some (.plain "connection reset")⟩,
        ⟨Op.UnblockByIdentifier, "user-1", none⟩] ∧
    (unblockAll flakyAPI ["user-1"] []).2.length = 2 ∧
    (["user-1"].filter (fun i => i ≠ "")).length +
      ((unblockAll flakyAPI ["user-1"] []).2.filter
        (fun c => decide (c.op = Op.Unblock) && isBadRequest c.err)).length = 1 := by
  decide

/-- C8, amended: when every ID-based call of the batch returns an error, the
number of backend calls the batch makes is the number of non-empty identifiers
plus the number of those whose ID-based call was rejected with status 400 or
failed with an error that is no `management.Error`. -/
theorem call_count_when_primary_fails {β : Type} (api : UserAPI β)
    (identifiers : List String) (calls made : List Call)
    (hmade : (unblockAll api identifiers calls).2 = calls ++ made)
    (hfail : ∀ c ∈ made, c.op = Op.Unblock → c.err ≠ none) :
    made.length = (identifiers.filter (fun i => i ≠ "")).length +
      (made.filter (fun c =>
        decide (c.op = Op.Unblock) && (isBadRequest c.err || isOtherType c.err))).length := by
  obtain ⟨made2, hcalls, _, hlen⟩ := unblockLoop_calls api identifiers ⟨[], calls⟩
  have heq : made2 = made := by
    have h2 : calls ++ made2 = calls ++ made := by
      rw [← hmade, ← hcalls]
      rfl
    exact List.append_cancel_left h2
  subst heq
  rw [hlen]
  congr 2
  apply List.filter_congr
  intro c hc
  by_cases hop : c.op = Op.Unblock
  · rcases herr : c.err with _ | e
    · exact absurd herr (hfail c hc hop)
    · simp only [hop, decide_True, Bool.true_and]
      exact fallsBack_eq e
  · simp [hop]

/-- C8, amended, at a concrete input: for ["auth0|abc123", "user@example.com"],
where the ID-based call answers "not found" for the first and is rejected as a
bad request for the second, which is then unblocked by identifier, the batch
makes 3 calls. -/
theorem call_count_when_primary_fails_witness :
    (unblockAll emailAPI ["auth0|abc123", "user@example.com"] []).2 =
      [⟨Op.Unblock, "auth0|abc123", some (.management 404 "Not Found")⟩,
        ⟨Op.Unblock, "user@example.com", some (.management 400 "Bad Request")⟩,
        ⟨Op.UnblockByIdentifier, "user@example.com", none⟩] ∧
    (3 : Nat) = (["auth0|abc123", "user@example.com"].filter (fun i => i ≠ "")).length +
      ([(⟨Op.Unblock, "auth0|abc123", some (.management 404 "Not Found")⟩ : Call),
        ⟨Op.Unblock, "user@example.com", some (.management 400 "Bad Request")⟩,
        ⟨Op.UnblockByIdentifier, "user@example.com", none⟩].filter (fun c =>
          decide (c.op = Op.Unblock) && (isBadRequest c.err || isOtherType c.err))).length :=
  ⟨by decide,
    call_count_when_primary_fails emailAPI ["auth0|abc123", "user@example.com"] []
      [⟨Op.Unblock, "auth0|abc123", some (.management 404 "Not Found")⟩,
        ⟨Op.Unblock, "user@example.com", some (.management 400 "Bad Request")⟩,
        ⟨Op.UnblockByIdentifier, "user@example.com", none⟩]
      (by decide) (by decide)⟩

end UsersBlocks
